import Mathlib

/-
Verification of the Cell Management System engine
(src/cellManagementSystem.py) against its natural-language specification.

The Python source keeps all state in `st.session_state`:
  cells_data  : dict cell_id -> cell attribute dict
  task_queue  : list of task dicts
  system_logs : list of log dicts
We embed cells as a structure over ℚ (Python floats/ints), the registry as
an association list in insertion order (Python dict semantics), tasks and
logs as lists, and each UI handler as a pure function on that state.
-/

namespace CellMS

/-- A battery cell record, mirroring the attribute dict built by the
Add Cell handler (src lines 246-256): voltage, current, temp, capacity,
min_voltage, max_voltage, soc, cycle_count, and the chemistry type tag. -/
structure Cell where
  voltage : ℚ
  current : ℚ
  temp : ℚ
  capacity : ℚ
  min_voltage : ℚ
  max_voltage : ℚ
  soc : ℚ
  cycle_count : ℚ
  ctype : String
deriving DecidableEq, Repr

/-- Discrete cell status returned by `get_cell_status`. -/
inductive CellStatus where
  | Good
  | Warning
  | Critical
deriving DecidableEq, Repr

/-- Embeds `get_cell_status` (src lines 73-85): Critical if voltage out of
[min_voltage, max_voltage] or temp > 45; else Warning if temp > 35 or
voltage < min_voltage + 0.1; else Good. -/
def get_cell_status (c : Cell) : CellStatus :=
  if c.voltage < c.min_voltage ∨ c.voltage > c.max_voltage ∨ c.temp > 45 then
    CellStatus.Critical
  else if c.temp > 35 ∨ c.voltage < c.min_voltage + 0.1 then
    CellStatus.Warning
  else
    CellStatus.Good

/-- Embeds `voltage_score` (src line 738). -/
def voltage_score (c : Cell) : ℚ :=
  if 3.0 ≤ c.voltage ∧ c.voltage ≤ 4.0 then 100
  else max 0 (100 - |c.voltage - 3.5| * 50)

/-- Embeds `temp_score` (src line 739). -/
def temp_score (c : Cell) : ℚ :=
  if c.temp ≤ 35 then 100
  else max 0 (100 - (c.temp - 35) * 5)

/-- Embeds `cycle_score` (src line 740). -/
def cycle_score (c : Cell) : ℚ :=
  max 0 (100 - c.cycle_count / 1000 * 100)

/-- Embeds `soc_score` (src line 741). -/
def soc_score (c : Cell) : ℚ :=
  if 20 ≤ c.soc ∧ c.soc ≤ 80 then 100
  else max 0 (100 - |c.soc - 50| * 2)

/-- Embeds `overall_health` (src line 743): arithmetic mean of the four
sub-scores. -/
def overall_health (c : Cell) : ℚ :=
  (voltage_score c + temp_score c + cycle_score c + soc_score c) / 4

/-- The reference cell of the spec's health-score test point:
voltage=3.5, temperature=25, cycle_count=0, soc=50. -/
def refCell : Cell :=
  { voltage := 3.5, current := 0, temp := 25, capacity := 10,
    min_voltage := 2.8, max_voltage := 3.6, soc := 50, cycle_count := 0,
    ctype := "lfp" }

/-- C5: `get_cell_status` is a total function; it returns Critical whenever
voltage < min_voltage or voltage > max_voltage or temperature > 45,
independent of other fields; otherwise Warning whenever temperature > 35 or
voltage < min_voltage + 0.1; otherwise Good. -/
theorem get_cell_status_spec (c : Cell) :
    ((c.voltage < c.min_voltage ∨ c.voltage > c.max_voltage ∨ c.temp > 45) →
      get_cell_status c = CellStatus.Critical) ∧
    (¬(c.voltage < c.min_voltage ∨ c.voltage > c.max_voltage ∨ c.temp > 45) →
      (c.temp > 35 ∨ c.voltage < c.min_voltage + 0.1) →
      get_cell_status c = CellStatus.Warning) ∧
    (¬(c.voltage < c.min_voltage ∨ c.voltage > c.max_voltage ∨ c.temp > 45) →
      ¬(c.temp > 35 ∨ c.voltage < c.min_voltage + 0.1) →
      get_cell_status c = CellStatus.Good) := by
  unfold get_cell_status
  refine ⟨fun h => ?_, fun h1 h2 => ?_, fun h1 h2 => ?_⟩
  · rw [if_pos h]
  · rw [if_neg h1, if_pos h2]
  · rw [if_neg h1, if_neg h2]

/-- The spec's classifier scenario cell in its Critical variant
(voltage 3.7 above max 3.6). -/
def critCell : Cell := { refCell with voltage := 3.7 }

/-- The spec's classifier scenario cell in its Warning variant
(temperature 40). -/
def warnCell : Cell := { refCell with temp := 40 }

lemma critCell_cond :
    critCell.voltage < critCell.min_voltage ∨
      critCell.voltage > critCell.max_voltage ∨ critCell.temp > 45 := by
  norm_num [critCell, refCell]

lemma warnCell_not_crit :
    ¬(warnCell.voltage < warnCell.min_voltage ∨
      warnCell.voltage > warnCell.max_voltage ∨ warnCell.temp > 45) := by
  norm_num [warnCell, refCell]

lemma warnCell_cond :
    warnCell.temp > 35 ∨ warnCell.voltage < warnCell.min_voltage + 0.1 := by
  norm_num [warnCell, refCell]

lemma refCell_not_crit :
    ¬(refCell.voltage < refCell.min_voltage ∨
      refCell.voltage > refCell.max_voltage ∨ refCell.temp > 45) := by
  norm_num [refCell]

lemma refCell_not_warn :
    ¬(refCell.temp > 35 ∨ refCell.voltage < refCell.min_voltage + 0.1) := by
  norm_num [refCell]

/-- Closed instantiation of C5's theorem: a cell above max voltage is
Critical, a hot cell within voltage bounds is Warning, and the reference
cell is Good. -/
theorem get_cell_status_spec_witness :
    get_cell_status critCell = CellStatus.Critical ∧
    get_cell_status warnCell = CellStatus.Warning ∧
    get_cell_status refCell = CellStatus.Good :=
  ⟨(get_cell_status_spec critCell).1 critCell_cond,
   (get_cell_status_spec warnCell).2.1 warnCell_not_crit warnCell_cond,
   (get_cell_status_spec refCell).2.2 refCell_not_crit refCell_not_warn⟩

/-- C6: for every cell with cycle_count ≥ 0 and soc in [0,100], the four
sub-scores are each in [0,100], the overall score is their arithmetic mean
and hence in [0,100]; the reference cell (voltage 3.5, temp 25, 0 cycles,
soc 50) scores overall exactly 100. -/
theorem health_score_spec :
    (∀ c : Cell, 0 ≤ c.cycle_count → 0 ≤ c.soc → c.soc ≤ 100 →
      (0 ≤ voltage_score c ∧ voltage_score c ≤ 100) ∧
      (0 ≤ temp_score c ∧ temp_score c ≤ 100) ∧
      (0 ≤ cycle_score c ∧ cycle_score c ≤ 100) ∧
      (0 ≤ soc_score c ∧ soc_score c ≤ 100) ∧
      overall_health c =
        (voltage_score c + temp_score c + cycle_score c + soc_score c) / 4 ∧
      0 ≤ overall_health c ∧ overall_health c ≤ 100) ∧
    overall_health refCell = 100 := by
  constructor
  · intro c hcyc _ _
    have hv : 0 ≤ voltage_score c ∧ voltage_score c ≤ 100 := by
      unfold voltage_score
      split_ifs with h
      · norm_num
      · have habs : (0:ℚ) ≤ |c.voltage - 3.5| * 50 :=
          mul_nonneg (abs_nonneg _) (by norm_num)
        exact ⟨le_max_left _ _, max_le (by norm_num) (by linarith)⟩
    have ht : 0 ≤ temp_score c ∧ temp_score c ≤ 100 := by
      unfold temp_score
      split_ifs with h
      · norm_num
      · have hpos : (0:ℚ) ≤ (c.temp - 35) * 5 :=
          mul_nonneg (by push_neg at h; linarith) (by norm_num)
        exact ⟨le_max_left _ _, max_le (by norm_num) (by linarith)⟩
    have hc : 0 ≤ cycle_score c ∧ cycle_score c ≤ 100 := by
      unfold cycle_score
      have hpos : (0:ℚ) ≤ c.cycle_count / 1000 * 100 :=
        mul_nonneg (div_nonneg hcyc (by norm_num)) (by norm_num)
      exact ⟨le_max_left _ _, max_le (by norm_num) (by linarith)⟩
    have hs : 0 ≤ soc_score c ∧ soc_score c ≤ 100 := by
      unfold soc_score
      split_ifs with h
      · norm_num
      · have habs : (0:ℚ) ≤ |c.soc - 50| * 2 :=
          mul_nonneg (abs_nonneg _) (by norm_num)
        exact ⟨le_max_left _ _, max_le (by norm_num) (by linarith)⟩
    refine ⟨hv, ht, hc, hs, rfl, ?_, ?_⟩
    · unfold overall_health
      obtain ⟨hv1, hv2⟩ := hv
      obtain ⟨ht1, ht2⟩ := ht
      obtain ⟨hc1, hc2⟩ := hc
      obtain ⟨hs1, hs2⟩ := hs
      linarith
    · unfold overall_health
      obtain ⟨hv1, hv2⟩ := hv
      obtain ⟨ht1, ht2⟩ := ht
      obtain ⟨hc1, hc2⟩ := hc
      obtain ⟨hs1, hs2⟩ := hs
      linarith
  · norm_num [overall_health, voltage_score, temp_score, cycle_score,
      soc_score, refCell]

/-- Closed instantiation of C6's theorem at the reference cell: the
invariant hypotheses hold there and its overall score is in [0,100]. -/
theorem health_score_spec_witness :
    (0 ≤ refCell.cycle_count ∧ 0 ≤ refCell.soc ∧ refCell.soc ≤ 100) ∧
    0 ≤ overall_health refCell ∧ overall_health refCell ≤ 100 :=
  ⟨⟨by decide, by decide, by decide⟩,
   (health_score_spec.1 refCell (by decide) (by decide) (by decide)).2.2.2.2.2⟩

/-- A task record, mirroring the dict built by the Create Task handler
(src lines 498-506). The wall-clock "created" timestamp is not modelled;
creation order is the task's position in the queue list. The type-specific
numeric parameter bundle is not referenced by any queue operation and is
omitted. -/
structure Task where
  id : String
  ttype : String
  cells : List String
  priority : String
  status : String
  description : String
deriving DecidableEq, Repr

/-- Embeds the Create Task handler (src lines 496-530): requires a
non-empty target cell list, assigns id "task_{len(queue)+1}", status
Queued, and appends the task at the end of the queue; with no target
cells the handler shows an error and the queue is unchanged. -/
def createTask (q : List Task) (ttype : String) (cells : List String)
    (priority : String) (desc : String) : List Task :=
  if cells.isEmpty then q
  else q ++ [{ id := "task_" ++ toString (q.length + 1), ttype := ttype,
               cells := cells, priority := priority, status := "Queued",
               description := desc }]

/-- Embeds the Start Next Task handler (src lines 539-544): if the queue
list is non-empty, the status of its FIRST element is set to Running;
neither the priority nor the current status of any task is consulted. -/
def startNext (q : List Task) : List Task :=
  match q with
  | [] => []
  | t :: rest => { t with status := "Running" } :: rest

/-- Embeds the Pause All Tasks handler (src lines 546-552): every task
whose status is Running is set to Paused. -/
def pauseAllRunning (q : List Task) : List Task :=
  q.map (fun t => if t.status = "Running" then { t with status := "Paused" } else t)

/-- Embeds the Clear Completed handler (src lines 555-557): drops every
task whose status is Completed. -/
def clearCompleted (q : List Task) : List Task :=
  q.filter (fun t => t.status ≠ "Completed")

/-- Embeds the per-task Start/Pause buttons (src lines 596-602): the first
task whose id matches gets its status overwritten, with no check of its
current status. -/
def setTaskStatus (q : List Task) (tid : String) (s : String) : List Task :=
  match q with
  | [] => []
  | t :: rest =>
      if t.id = tid then { t with status := s } :: rest
      else t :: setTaskStatus rest tid s

/-- The per-task Start button (src lines 596-598). -/
def taskStart (q : List Task) (tid : String) : List Task :=
  setTaskStatus q tid "Running"

/-- The per-task Pause button (src lines 600-602). -/
def taskPause (q : List Task) (tid : String) : List Task :=
  setTaskStatus q tid "Paused"

/-- Embeds the per-task Cancel button (src lines 604-607): removes the
first task whose id matches, with no check of its current status. -/
def taskCancel (q : List Task) (tid : String) : List Task :=
  match q with
  | [] => []
  | t :: rest => if t.id = tid then rest else t :: taskCancel rest tid

/-- k consecutive Create Task invocations starting from the empty queue. -/
def createN : Nat → List Task
  | 0 => []
  | k + 1 => createTask (createN k) "IDLE" ["A"] "Low" ""

/-- A Low-priority queued task created first. -/
def lowTask : Task :=
  { id := "task_1", ttype := "IDLE", cells := ["A"], priority := "Low",
    status := "Queued", description := "" }

/-- A Critical-priority queued task created second. -/
def critTask : Task :=
  { id := "task_2", ttype := "IDLE", cells := ["A"], priority := "Critical",
    status := "Queued", description := "" }

/-- A task already in the terminal Completed status. -/
def doneTask : Task :=
  { id := "task_1", ttype := "IDLE", cells := ["A"], priority := "Low",
    status := "Completed", description := "" }

/-- A task currently Running. -/
def runningTask : Task :=
  { id := "task_1", ttype := "IDLE", cells := ["A"], priority := "Low",
    status := "Running", description := "" }

/-- C1 counterexample: with a Low-priority task created first and a
Critical-priority task created second, both Queued, Start Next Task sets
the LOW task Running and leaves the Critical one Queued — the handler
takes the first list element, not the highest-priority Queued task. -/
theorem startNext_counterexample :
    (startNext [lowTask, critTask]).map (fun t => (t.priority, t.status)) =
      [("Low", "Running"), ("Critical", "Queued")] := by decide

/-- C1 amended: Start Next Task, on a non-empty queue, sets the status of
the first task (earliest created, regardless of priority or current
status) to Running, keeping its identity and leaving all later tasks
untouched; on an empty queue it changes nothing. -/
theorem startNext_amended (q : List Task) :
    (q = [] → startNext q = q) ∧
    (q ≠ [] →
      (startNext q).head?.map Task.status = some "Running" ∧
      (startNext q).head?.map Task.id = q.head?.map Task.id ∧
      (startNext q).head?.map Task.priority = q.head?.map Task.priority ∧
      (startNext q).tail = q.tail ∧
      (startNext q).length = q.length) := by
  cases q with
  | nil => exact ⟨fun _ => rfl, fun h => absurd rfl h⟩
  | cons t rest =>
      refine ⟨fun h => by simp at h, fun _ => ?_⟩
      simp [startNext]

/-- Closed instantiation of C1's amended theorem: the empty queue is
unchanged, and on a two-task queue the head task becomes Running. -/
theorem startNext_amended_witness :
    startNext [] = [] ∧
    (startNext [lowTask, critTask]).head?.map Task.status = some "Running" :=
  ⟨(startNext_amended []).1 rfl,
   ((startNext_amended [lowTask, critTask]).2 (by decide)).1⟩

/-- C8: Pause All Tasks is idempotent on the queue, leaves no task in
status Running, and is the identity when no task is Running. -/
theorem pauseAllRunning_spec (q : List Task) :
    pauseAllRunning (pauseAllRunning q) = pauseAllRunning q ∧
    (∀ t ∈ pauseAllRunning q, t.status ≠ "Running") ∧
    ((∀ t ∈ q, t.status ≠ "Running") → pauseAllRunning q = q) := by
  refine ⟨?_, ?_, ?_⟩
  · unfold pauseAllRunning
    rw [List.map_map]
    apply List.map_congr_left
    intro t _
    by_cases h : t.status = "Running" <;> simp [Function.comp_apply, h]
  · intro t ht
    unfold pauseAllRunning at ht
    rw [List.mem_map] at ht
    obtain ⟨u, _, rfl⟩ := ht
    by_cases h : u.status = "Running" <;> simp [h]
  · intro h
    unfold pauseAllRunning
    have heq : ∀ t ∈ q,
        (if t.status = "Running" then { t with status := "Paused" } else t) = id t :=
      fun t ht => by simp [h t ht]
    rw [List.map_congr_left heq, List.map_id]

/-- Closed instantiation of C8's theorem: idempotence on a queue holding
one Running task, and identity on a queue with no Running task. -/
theorem pauseAllRunning_spec_witness :
    pauseAllRunning (pauseAllRunning [runningTask]) =
      pauseAllRunning [runningTask] ∧
    pauseAllRunning [lowTask] = [lowTask] :=
  ⟨(pauseAllRunning_spec [runningTask]).1,
   (pauseAllRunning_spec [lowTask]).2.2 (by decide)⟩

/-- C3 counterexample: on a queue holding a single Completed task, the
Start button sets it Running (no InvalidTransition failure) and the
Cancel button removes it (no AlreadyTerminal failure). -/
theorem terminal_status_counterexample :
    (taskStart [doneTask] "task_1").map Task.status = ["Running"] ∧
    taskCancel [doneTask] "task_1" = [] := by decide

lemma setTaskStatus_append (pre post : List Task) (t : Task) (s : String)
    (h : ∀ u ∈ pre, u.id ≠ t.id) :
    setTaskStatus (pre ++ t :: post) t.id s =
      pre ++ { t with status := s } :: post := by
  induction pre with
  | nil => simp [setTaskStatus]
  | cons u rest ih =>
      have hu : u.id ≠ t.id := h u (List.mem_cons_self u rest)
      simp only [List.cons_append, setTaskStatus, if_neg hu, List.append_eq]
      rw [ih (fun v hv => h v (List.mem_cons_of_mem u hv))]

lemma taskCancel_append (pre post : List Task) (t : Task)
    (h : ∀ u ∈ pre, u.id ≠ t.id) :
    taskCancel (pre ++ t :: post) t.id = pre ++ post := by
  induction pre with
  | nil => simp [taskCancel]
  | cons u rest ih =>
      have hu : u.id ≠ t.id := h u (List.mem_cons_self u rest)
      simp only [List.cons_append, taskCancel, if_neg hu, List.append_eq]
      rw [ih (fun v hv => h v (List.mem_cons_of_mem u hv))]

/-- C3 amended: the Start/Pause/Cancel buttons apply unconditionally,
whatever the task's current status (including the terminal Completed and
Cancelled): Start sets it Running, Pause sets it Paused, and Cancel
removes it from the queue, each leaving every other task unchanged. -/
theorem task_buttons_ignore_status (pre post : List Task) (t : Task)
    (h : ∀ u ∈ pre, u.id ≠ t.id) :
    taskStart (pre ++ t :: post) t.id =
      pre ++ { t with status := "Running" } :: post ∧
    taskPause (pre ++ t :: post) t.id =
      pre ++ { t with status := "Paused" } :: post ∧
    taskCancel (pre ++ t :: post) t.id = pre ++ post :=
  ⟨setTaskStatus_append pre post t "Running" h,
   setTaskStatus_append pre post t "Paused" h,
   taskCancel_append pre post t h⟩

/-- Closed instantiation of C3's amended theorem at a Completed task. -/
theorem task_buttons_ignore_status_witness :
    taskStart [doneTask] doneTask.id = [{ doneTask with status := "Running" }] ∧
    taskCancel [doneTask] doneTask.id = [] :=
  ⟨(task_buttons_ignore_status [] [] doneTask (by simp)).1,
   (task_buttons_ignore_status [] [] doneTask (by simp)).2.2⟩

/-- C4 counterexample: create two tasks (ids task_1, task_2), cancel
task_1, then create again — the new task is again assigned id task_2, so
ids are neither unique over the queue lifetime nor strictly increasing. -/
theorem task_id_reuse_counterexample :
    ((createTask (taskCancel (createTask (createTask [] "IDLE" ["A"] "Low" "")
        "IDLE" ["A"] "Low" "") "task_1") "IDLE" ["A"] "Low" "").map Task.id =
      ["task_2", "task_2"]) ∧
    ¬ ((createTask (taskCancel (createTask (createTask [] "IDLE" ["A"] "Low" "")
        "IDLE" ["A"] "Low" "") "task_1") "IDLE" ["A"] "Low" "").map Task.id).Nodup := by
  decide

/-- C4 amended: each created task is assigned id "task_{n+1}" where n is
the queue length at creation time (so ids repeat once tasks have been
cancelled or cleared); over a run of creates with no removals starting
from the empty queue, the assigned ids are task_1, ..., task_k in
creation order. -/
theorem createTask_id_spec :
    (∀ (q : List Task) (ttype : String) (cells : List String)
        (prio desc : String), cells ≠ [] →
      (createTask q ttype cells prio desc).map Task.id =
        q.map Task.id ++ ["task_" ++ toString (q.length + 1)]) ∧
    (∀ k : Nat, (createN k).map Task.id =
      (List.range k).map (fun i => "task_" ++ toString (i + 1))) := by
  have hstep : ∀ (q : List Task) (ttype : String) (cells : List String)
      (prio desc : String), cells ≠ [] →
      (createTask q ttype cells prio desc).map Task.id =
        q.map Task.id ++ ["task_" ++ toString (q.length + 1)] := by
    intro q ttype cells prio desc hc
    cases cells with
    | nil => exact absurd rfl hc
    | cons a as => simp [createTask]
  have hlen : ∀ k, (createN k).length = k := by
    intro k
    induction k with
    | zero => rfl
    | succ k ih => simp [createN, createTask, ih]
  refine ⟨hstep, ?_⟩
  intro k
  induction k with
  | zero => rfl
  | succ k ih =>
      rw [List.range_succ, List.map_append]
      show (createTask (createN k) "IDLE" ["A"] "Low" "").map Task.id = _
      rw [hstep (createN k) "IDLE" ["A"] "Low" "" (by decide), ih, hlen k]
      simp

/-- Closed instantiation of C4's amended theorem: the first create on the
empty queue assigns id task_1. -/
theorem createTask_id_spec_witness :
    (createTask [] "IDLE" ["A"] "Low" "").map Task.id =
      ([] : List Task).map Task.id ++
        ["task_" ++ toString (([] : List Task).length + 1)] :=
  createTask_id_spec.1 [] "IDLE" ["A"] "Low" "" (by decide)

/-- A system log record, mirroring `log_event` (src lines 113-120); the
wall-clock timestamp is not modelled. -/
structure LogEntry where
  event_type : String
  message : String
deriving DecidableEq, Repr

/-- The cell registry `cells_data`: cell id -> cell, in insertion order
(Python dict semantics). -/
abbrev Registry := List (String × Cell)

/-- Python dict assignment `d[k] = v`: replaces the value in place when
the key is present (keeping its position), otherwise appends the
binding. -/
def dictInsert (reg : Registry) (k : String) (v : Cell) : Registry :=
  if reg.any (fun p => p.1 = k) then
    reg.map (fun p => if p.1 = k then (k, v) else p)
  else reg ++ [(k, v)]

/-- Python dict lookup `d[k]` as an Option. -/
def lookupCell (reg : Registry) (k : String) : Option Cell :=
  (reg.find? (fun p => p.1 = k)).map Prod.snd

/-- The cell dict built by the Add Cell handler (src lines 243-256):
min/max voltage are derived from the chemistry type (lfp: 2.8/3.6,
otherwise 3.2/4.0). -/
def mkNewCell (ctype : String)
    (voltage current temp capacity soc cycle_count : ℚ) : Cell :=
  { voltage := voltage, current := current, temp := temp,
    capacity := capacity,
    min_voltage := if ctype = "lfp" then 2.8 else 3.2,
    max_voltage := if ctype = "lfp" then 3.6 else 4.0,
    soc := soc, cycle_count := cycle_count, ctype := ctype }

/-- Embeds the Add Cell handler (src lines 241-262): with a non-empty
cell id the cell is stored under that id (overwriting any existing entry)
and one INFO log entry is appended; with an empty id an error is shown
and nothing changes. -/
def addCell (reg : Registry) (logs : List LogEntry) (cid ctype : String)
    (voltage current temp capacity soc cycle_count : ℚ) :
    Registry × List LogEntry :=
  if cid = "" then (reg, logs)
  else
    (dictInsert reg cid
       (mkNewCell ctype voltage current temp capacity soc cycle_count),
     logs ++ [{ event_type := "INFO",
                message := "Cell " ++ cid ++ " added successfully" }])

lemma find_in_map_replace (reg : Registry) (k : String) (v : Cell) :
    reg.any (fun p => p.1 = k) = true →
    lookupCell (reg.map (fun p => if p.1 = k then (k, v) else p)) k =
      some v := by
  induction reg with
  | nil => intro h; simp at h
  | cons p rest ih =>
      intro h
      by_cases hp : p.1 = k
      · simp [lookupCell, List.find?, hp]
      · have h' : rest.any (fun p => p.1 = k) = true := by
          simpa [List.any_cons, hp] using h
        simpa [lookupCell, List.find?, hp] using ih h'

lemma lookup_append_of_not_mem (reg l : Registry) (k : String) :
    reg.any (fun p => p.1 = k) = false →
    lookupCell (reg ++ l) k = lookupCell l k := by
  induction reg with
  | nil => intro _; rfl
  | cons p rest ih =>
      intro h
      have hp : ¬ p.1 = k := by
        intro he
        simp [List.any_cons, he] at h
      have h' : rest.any (fun p => p.1 = k) = false := by
        simpa [List.any_cons, hp] using h
      simpa [lookupCell, List.find?, hp] using ih h'

lemma lookupCell_cons (p : String × Cell) (rest : Registry) (k : String) :
    lookupCell (p :: rest) k =
      if p.1 = k then some p.2 else lookupCell rest k := by
  unfold lookupCell
  by_cases hp : p.1 = k
  · rw [if_pos hp,
      @List.find?_cons_of_pos _ (fun q : String × Cell => decide (q.1 = k))
        p rest (by simp [hp])]
    rfl
  · rw [if_neg hp,
      @List.find?_cons_of_neg _ (fun q : String × Cell => decide (q.1 = k))
        p rest (by simp [hp])]

lemma map_replace_lookup_ne (reg : Registry) (k : String) (v : Cell)
    (k' : String) (hne : k' ≠ k) :
    lookupCell (reg.map (fun p => if p.1 = k then (k, v) else p)) k' =
      lookupCell reg k' := by
  have hk' : ¬ k = k' := fun he => hne he.symm
  induction reg with
  | nil => rfl
  | cons p rest ih =>
      rw [List.map_cons]
      by_cases hp : p.1 = k
      · rw [if_pos hp, lookupCell_cons, lookupCell_cons]
        have h1 : ¬ ((k, v) : String × Cell).1 = k' := hk'
        have h2 : ¬ p.1 = k' := by rw [hp]; exact hk'
        rw [if_neg h1, if_neg h2]
        exact ih
      · rw [if_neg hp, lookupCell_cons, lookupCell_cons]
        by_cases hp' : p.1 = k'
        · rw [if_pos hp', if_pos hp']
        · rw [if_neg hp', if_neg hp']
          exact ih

lemma lookupCell_dictInsert_self (reg : Registry) (k : String) (v : Cell) :
    lookupCell (dictInsert reg k v) k = some v := by
  unfold dictInsert
  split_ifs with h
  · exact find_in_map_replace reg k v h
  · have h' : reg.any (fun p => p.1 = k) = false := by
      rwa [Bool.not_eq_true] at h
    rw [lookup_append_of_not_mem reg _ k h']
    simp [lookupCell, List.find?]

lemma lookup_append_single_ne (reg : Registry) (k : String) (v : Cell)
    (k' : String) (hne : k' ≠ k) :
    lookupCell (reg ++ [(k, v)]) k' = lookupCell reg k' := by
  have hk' : ¬ k = k' := fun he => hne he.symm
  induction reg with
  | nil =>
      rw [List.nil_append, lookupCell_cons]
      rw [if_neg hk']
  | cons p rest ih =>
      rw [List.cons_append, lookupCell_cons, lookupCell_cons]
      by_cases hp : p.1 = k'
      · rw [if_pos hp, if_pos hp]
      · rw [if_neg hp, if_neg hp]
        exact ih

lemma lookupCell_dictInsert_ne (reg : Registry) (k : String) (v : Cell)
    (k' : String) (hne : k' ≠ k) :
    lookupCell (dictInsert reg k v) k' = lookupCell reg k' := by
  unfold dictInsert
  split_ifs with h
  · exact map_replace_lookup_ne reg k v k' hne
  · exact lookup_append_single_ne reg k v k' hne

/-- C2 counterexample: registering id "A" and then registering "A" again
with different attributes does NOT fail with DuplicateId — the second call
overwrites the stored cell and appends a second INFO log entry, so neither
the registry nor the log is left as it was. (No attribute validation
exists either: the second call's capacity could just as well be negative.) -/
theorem duplicate_register_counterexample :
    (addCell (addCell [] [] "A" "lfp" 3.2 0 25 10 50 0).1
       (addCell [] [] "A" "lfp" 3.2 0 25 10 50 0).2
       "A" "nmc" 3.7 1 30 8 60 5).1 =
      [("A", mkNewCell "nmc" 3.7 1 30 8 60 5)] ∧
    (addCell (addCell [] [] "A" "lfp" 3.2 0 25 10 50 0).1
       (addCell [] [] "A" "lfp" 3.2 0 25 10 50 0).2
       "A" "nmc" 3.7 1 30 8 60 5).2.length = 2 :=
  ⟨rfl, rfl⟩

/-- C2 amended: the Add Cell handler performs no duplicate-id and no
attribute validation. With a non-empty id it always succeeds: the cell is
stored under the id (overwriting any existing cell), every other id's
binding is unchanged, and exactly one INFO log entry is appended. Only an
empty id fails, and then registry and log are unchanged. -/
theorem addCell_amended (reg : Registry) (logs : List LogEntry)
    (cid ctype : String)
    (voltage current temp capacity soc cycle_count : ℚ) :
    (cid = "" →
      addCell reg logs cid ctype voltage current temp capacity soc
        cycle_count = (reg, logs)) ∧
    (cid ≠ "" →
      lookupCell (addCell reg logs cid ctype voltage current temp capacity
          soc cycle_count).1 cid =
        some (mkNewCell ctype voltage current temp capacity soc
          cycle_count) ∧
      (∀ k, k ≠ cid →
        lookupCell (addCell reg logs cid ctype voltage current temp
            capacity soc cycle_count).1 k = lookupCell reg k) ∧
      (addCell reg logs cid ctype voltage current temp capacity soc
          cycle_count).2 =
        logs ++ [{ event_type := "INFO",
                   message := "Cell " ++ cid ++ " added successfully" }]) := by
  constructor
  · intro h
    simp [addCell, h]
  · intro h
    refine ⟨?_, ?_, ?_⟩
    · simp only [addCell, if_neg h]
      exact lookupCell_dictInsert_self reg cid _
    · intro k hk
      simp only [addCell, if_neg h]
      exact lookupCell_dictInsert_ne reg cid _ k hk
    · simp only [addCell, if_neg h]

/-- Closed instantiation of C2's amended theorem: adding cell "A" to the
empty registry stores it and can be looked up. -/
theorem addCell_amended_witness :
    lookupCell (addCell [] [] "A" "lfp" 3.2 0 25 10 50 0).1 "A" =
      some (mkNewCell "lfp" 3.2 0 25 10 50 0) :=
  ((addCell_amended [] [] "A" "lfp" 3.2 0 25 10 50 0).2 (by decide)).1

/-- Embeds the Export Configuration button (src lines 320-328): the
exported document is the full registry mapping (JSON byte layout is the
collaborator's concern and is not modelled). -/
def exportConfig (reg : Registry) : Registry := reg

/-- Embeds the Import Configuration handler (src lines 311-318): the
uploaded mapping is merged into the registry with Python dict.update
semantics — every binding of the document is stored in order. -/
def importConfig (reg : Registry) (config : Registry) : Registry :=
  config.foldl (fun r p => dictInsert r p.1 p.2) reg

lemma dictInsert_fresh (reg : Registry) (k : String) (v : Cell)
    (h : reg.any (fun p => p.1 = k) = false) :
    dictInsert reg k v = reg ++ [(k, v)] := by
  unfold dictInsert
  rw [h]
  simp

lemma importConfig_fresh :
    ∀ (config acc : Registry),
      (∀ p ∈ config, ∀ q ∈ acc, q.1 ≠ p.1) →
      (config.map Prod.fst).Nodup →
      importConfig acc config = acc ++ config := by
  intro config
  induction config with
  | nil =>
      intro acc _ _
      simp [importConfig]
  | cons p rest ih =>
      intro acc hdisj hnodup
      rw [List.map_cons, List.nodup_cons] at hnodup
      obtain ⟨hpnot, hrestnodup⟩ := hnodup
      have hany : acc.any (fun q => q.1 = p.1) = false := by
        rw [List.any_eq_false]
        intro q hq
        simpa using hdisj p (List.mem_cons_self p rest) q hq
      have hstep : importConfig acc (p :: rest) =
          importConfig (acc ++ [p]) rest := by
        unfold importConfig
        rw [List.foldl_cons]
        rw [show dictInsert acc p.1 p.2 = acc ++ [p] from by
          rw [dictInsert_fresh acc p.1 p.2 hany]]
      rw [hstep]
      have hdisj' : ∀ r ∈ rest, ∀ q ∈ acc ++ [p], q.1 ≠ r.1 := by
        intro r hr q hq
        rcases List.mem_append.mp hq with hq1 | hq2
        · exact hdisj r (List.mem_cons_of_mem p hr) q hq1
        · have : q = p := by simpa using hq2
          subst this
          intro he
          exact hpnot (he ▸ List.mem_map_of_mem Prod.fst hr)
      rw [ih (acc ++ [p]) hdisj' hrestnodup]
      simp

/-- C9: exporting the full registry and importing the exported document
into an empty registry reproduces the original registry field-for-field
(the hypothesis that ids are distinct is the Python dict key invariant). -/
theorem export_import_roundtrip (reg : Registry)
    (h : (reg.map Prod.fst).Nodup) :
    importConfig [] (exportConfig reg) = reg := by
  have hd : ∀ p ∈ exportConfig reg, ∀ q ∈ ([] : Registry), q.1 ≠ p.1 := by
    intro p _ q hq
    simp at hq
  simpa [exportConfig] using importConfig_fresh (exportConfig reg) [] hd h

/-- Closed instantiation of C9's theorem on a two-cell registry. -/
theorem export_import_roundtrip_witness :
    (([("A", refCell), ("B", critCell)] : Registry).map Prod.fst).Nodup ∧
    importConfig [] (exportConfig [("A", refCell), ("B", critCell)]) =
      [("A", refCell), ("B", critCell)] :=
  ⟨by decide, export_import_roundtrip [("A", refCell), ("B", critCell)]
    (by decide)⟩

/-- The session state touched by the Control Panel handlers: the cell
registry, the task queue and the system logs (src lines 63-68). -/
structure SysState where
  cells_data : Registry
  task_queue : List Task
  system_logs : List LogEntry
deriving Repr

/-- Character-list prefix test, used to embed Python's `in` operator. -/
def charsLeadEq : List Char → List Char → Bool
  | [], _ => true
  | _ :: _, [] => false
  | a :: as, b :: bs => a = b && charsLeadEq as bs

/-- Python's substring test `needle in hay` on strings. -/
def strContains (hay needle : String) : Bool :=
  go needle.toList hay.toList
where
  go (needle : List Char) : List Char → Bool
    | [] => needle.isEmpty
    | b :: bs => charsLeadEq needle (b :: bs) || go needle bs

/-- Embeds the Balance All Cells batch operation (src lines 406-410):
every cell's current is set to 1.0 and one INFO log entry is appended. -/
def balanceAll (s : SysState) : SysState :=
  { s with
    cells_data := s.cells_data.map (fun p => (p.1, { p.2 with current := 1.0 })),
    system_logs := s.system_logs ++
      [{ event_type := "INFO", message := "Batch balancing operation started" }] }

/-- Embeds the Emergency Stop All batch operation (src lines 412-416):
every cell's current is set to 0.0 and one WARNING log entry is
appended. -/
def emergencyStopAll (s : SysState) : SysState :=
  { s with
    cells_data := s.cells_data.map (fun p => (p.1, { p.2 with current := 0.0 })),
    system_logs := s.system_logs ++
      [{ event_type := "WARNING", message := "Emergency stop - all cells stopped" }] }

/-- Embeds the Reset All Temperatures batch operation (src lines 418-422):
every cell's temp is set to 25.0 and one INFO log entry is appended. -/
def resetAllTemperatures (s : SysState) : SysState :=
  { s with
    cells_data := s.cells_data.map (fun p => (p.1, { p.2 with temp := 25.0 })),
    system_logs := s.system_logs ++
      [{ event_type := "INFO", message := "All cell temperatures reset to 25°C" }] }

/-- Embeds the Set All Currents to Zero batch operation (src lines
424-428): every cell's current is set to 0.0 and one INFO log entry is
appended. -/
def zeroAllCurrents (s : SysState) : SysState :=
  { s with
    cells_data := s.cells_data.map (fun p => (p.1, { p.2 with current := 0.0 })),
    system_logs := s.system_logs ++
      [{ event_type := "INFO", message := "All cell currents set to zero" }] }

/-- Embeds the EMERGENCY SHUTDOWN button (src lines 436-440): every cell's
current and voltage are set to 0.0 and one CRITICAL log entry is
appended. -/
def emergencyShutdown (s : SysState) : SysState :=
  { s with
    cells_data := s.cells_data.map
      (fun p => (p.1, { p.2 with current := 0.0, voltage := 0.0 })),
    system_logs := s.system_logs ++
      [{ event_type := "CRITICAL", message := "EMERGENCY SHUTDOWN ACTIVATED" }] }

/-- Embeds the SYSTEM RESTART button (src lines 443-451): every cell is
reset to voltage 3.2 (when "lfp" occurs in its id) or 3.6 (otherwise),
current 0.0 and temp 25.0; one INFO log entry is appended. -/
def systemRestart (s : SysState) : SysState :=
  { s with
    cells_data := s.cells_data.map (fun p =>
      if strContains p.1 "lfp" then
        (p.1, { p.2 with voltage := 3.2, current := 0.0, temp := 25.0 })
      else
        (p.1, { p.2 with voltage := 3.6, current := 0.0, temp := 25.0 })),
    system_logs := s.system_logs ++
      [{ event_type := "INFO", message := "System restart completed" }] }

/-- C7: the Emergency Stop All batch operation over a registry of n cells
sets current = 0.0 on every one of the n cells (the loop touches all n and
preserves them, which is the reported count_affected = n), appending
exactly one WARNING log entry; the Balance, Reset Temperatures and Zero
Currents operations each append exactly one INFO entry. -/
theorem emergencyStopAll_spec (s : SysState) :
    (emergencyStopAll s).cells_data.length = s.cells_data.length ∧
    (∀ p ∈ (emergencyStopAll s).cells_data, p.2.current = 0.0) ∧
    (emergencyStopAll s).system_logs = s.system_logs ++
      [{ event_type := "WARNING",
         message := "Emergency stop - all cells stopped" }] ∧
    (balanceAll s).system_logs = s.system_logs ++
      [{ event_type := "INFO",
         message := "Batch balancing operation started" }] ∧
    (resetAllTemperatures s).system_logs = s.system_logs ++
      [{ event_type := "INFO",
         message := "All cell temperatures reset to 25°C" }] ∧
    (zeroAllCurrents s).system_logs = s.system_logs ++
      [{ event_type := "INFO",
         message := "All cell currents set to zero" }] := by
  refine ⟨?_, ?_, rfl, rfl, rfl, rfl⟩
  · simp [emergencyStopAll]
  · intro p hp
    simp only [emergencyStopAll, List.mem_map] at hp
    obtain ⟨q, _, rfl⟩ := hp
    rfl

/-- Closed instantiation of C7's theorem on a one-cell registry. -/
theorem emergencyStopAll_spec_witness :
    (emergencyStopAll ⟨[("A", refCell)], [], []⟩).cells_data.length = 1 ∧
    ("A", { refCell with current := 0.0 }) ∈
      (emergencyStopAll ⟨[("A", refCell)], [], []⟩).cells_data ∧
    ({ refCell with current := 0.0 } : Cell).current = 0.0 :=
  ⟨(emergencyStopAll_spec ⟨[("A", refCell)], [], []⟩).1,
   List.mem_singleton.mpr rfl,
   (emergencyStopAll_spec ⟨[("A", refCell)], [], []⟩).2.1
     ("A", { refCell with current := 0.0 }) (List.mem_singleton.mpr rfl)⟩

/-- For C10: pointwise preservation of a cell field between the registry
before and after a bulk operation. -/
def fieldPreserved (f : Cell → ℚ) (a b : Registry) : Prop :=
  List.Forall₂ (fun p q => f p.2 = f q.2) a b

/-- For C10: pointwise preservation of the id and of every field a bulk
operation is not supposed to touch: capacity, soc, cycle_count,
min_voltage, max_voltage and the chemistry tag. -/
def corePreserved (a b : Registry) : Prop :=
  List.Forall₂ (fun p q =>
    p.1 = q.1 ∧ p.2.capacity = q.2.capacity ∧ p.2.soc = q.2.soc ∧
    p.2.cycle_count = q.2.cycle_count ∧
    p.2.min_voltage = q.2.min_voltage ∧
    p.2.max_voltage = q.2.max_voltage ∧ p.2.ctype = q.2.ctype) a b

lemma forall₂_map_self {R : String × Cell → String × Cell → Prop}
    (l : Registry) (f : String × Cell → String × Cell)
    (h : ∀ x, R x (f x)) : List.Forall₂ R l (l.map f) := by
  induction l with
  | nil => exact List.Forall₂.nil
  | cons p rest ih => exact List.Forall₂.cons (h p) ih

lemma systemRestart_fst (s : SysState) :
    (systemRestart s).cells_data.map Prod.fst = s.cells_data.map Prod.fst := by
  simp only [systemRestart, List.map_map]
  apply List.map_congr_left
  intro x _
  by_cases h : strContains x.1 "lfp" <;> simp [Function.comp_apply, h]

/-- C10: every batch operation (Balance, EmergencyStop, ResetTemperature,
ZeroCurrent) and both emergency controls (shutdown, restart) keep the
registry's cell ids (same list of ids, in order) and the entire task
queue, and leave capacity, soc, cycle_count, min_voltage, max_voltage and
the chemistry tag of every cell unchanged; temperature is additionally
unchanged except by ResetTemperature/restart, and voltage except by
shutdown/restart. -/
theorem bulk_ops_frame (s : SysState) :
    (corePreserved s.cells_data (balanceAll s).cells_data ∧
     fieldPreserved Cell.temp s.cells_data (balanceAll s).cells_data ∧
     fieldPreserved Cell.voltage s.cells_data (balanceAll s).cells_data ∧
     (balanceAll s).cells_data.map Prod.fst = s.cells_data.map Prod.fst ∧
     (balanceAll s).task_queue = s.task_queue) ∧
    (corePreserved s.cells_data (emergencyStopAll s).cells_data ∧
     fieldPreserved Cell.temp s.cells_data (emergencyStopAll s).cells_data ∧
     fieldPreserved Cell.voltage s.cells_data (emergencyStopAll s).cells_data ∧
     (emergencyStopAll s).cells_data.map Prod.fst = s.cells_data.map Prod.fst ∧
     (emergencyStopAll s).task_queue = s.task_queue) ∧
    (corePreserved s.cells_data (zeroAllCurrents s).cells_data ∧
     fieldPreserved Cell.temp s.cells_data (zeroAllCurrents s).cells_data ∧
     fieldPreserved Cell.voltage s.cells_data (zeroAllCurrents s).cells_data ∧
     (zeroAllCurrents s).cells_data.map Prod.fst = s.cells_data.map Prod.fst ∧
     (zeroAllCurrents s).task_queue = s.task_queue) ∧
    (corePreserved s.cells_data (resetAllTemperatures s).cells_data ∧
     fieldPreserved Cell.voltage s.cells_data (resetAllTemperatures s).cells_data ∧
     (resetAllTemperatures s).cells_data.map Prod.fst = s.cells_data.map Prod.fst ∧
     (resetAllTemperatures s).task_queue = s.task_queue) ∧
    (corePreserved s.cells_data (emergencyShutdown s).cells_data ∧
     fieldPreserved Cell.temp s.cells_data (emergencyShutdown s).cells_data ∧
     (emergencyShutdown s).cells_data.map Prod.fst = s.cells_data.map Prod.fst ∧
     (emergencyShutdown s).task_queue = s.task_queue) ∧
    (corePreserved s.cells_data (systemRestart s).cells_data ∧
     (systemRestart s).cells_data.map Prod.fst = s.cells_data.map Prod.fst ∧
     (systemRestart s).task_queue = s.task_queue) := by
  refine ⟨⟨?_, ?_, ?_, ?_, rfl⟩, ⟨?_, ?_, ?_, ?_, rfl⟩, ⟨?_, ?_, ?_, ?_, rfl⟩,
    ⟨?_, ?_, ?_, rfl⟩, ⟨?_, ?_, ?_, rfl⟩, ⟨?_, ?_, rfl⟩⟩ <;>
  first
    | (apply forall₂_map_self
       intro x
       first
         | exact ⟨rfl, rfl, rfl, rfl, rfl, rfl, rfl⟩
         | rfl
         | (dsimp only
            split <;> exact ⟨rfl, rfl, rfl, rfl, rfl, rfl, rfl⟩))
    | (exact systemRestart_fst s)
    | (simp [balanceAll, emergencyStopAll, zeroAllCurrents,
        resetAllTemperatures, emergencyShutdown, systemRestart]
       done)

end CellMS

